import Mathlib

/-!
Verification development for the AxiOnt ontology visualizer (src/app.py).
The Python functions `get_label`, `get_comment`, `infer_type`,
`build_network`, `serialize_subset` and the node-table type filter are
embedded shallowly: an rdflib term becomes a `Node`, a graph becomes a
`List Triple` (rdflib's memory store iterates triples in insertion order,
so a list models both membership and iteration order), and the Python
set iteration over subjects and objects in `build_network` — whose order
is not fixed — is made explicit as enumeration parameters.
-/

namespace AxiOnt

/-- An rdflib term: a URIRef, a Literal (lexical form plus optional
language tag), or a BNode. -/
inductive Node where
  | uri (s : String)
  | lit (value : String) (lang : Option String)
  | blank (id : String)
deriving DecidableEq

/-- Mirrors `isinstance(x, URIRef)`. -/
def Node.isUri : Node → Bool
  | .uri _ => true
  | _ => false

/-- Mirrors `isinstance(x, Literal)`. -/
def Node.isLit : Node → Bool
  | .lit _ _ => true
  | _ => false

/-- Mirrors Python `str(term)`: the identifier of a URIRef or BNode, the
lexical form of a Literal. -/
def nodeStr : Node → String
  | .uri s => s
  | .lit v _ => v
  | .blank b => b

/-- Python truthiness of an rdflib term (all are `str` subclasses whose
truth value is non-emptiness; typed literals with a parsed value are not
modelled, only plain and language-tagged ones). -/
def Node.truthy (n : Node) : Bool := nodeStr n ≠ ""

/-- One RDF triple (subject, predicate, object). -/
structure Triple where
  s : Node
  p : Node
  o : Node
deriving DecidableEq

/-- A parsed graph: the triples in store-insertion order. -/
abbrev Graph := List Triple

/-! Vocabulary constants used by app.py. -/

def rdfType : Node := .uri "http://www.w3.org/1999/02/22-rdf-syntax-ns#type"

def rdfPropertyN : Node := .uri "http://www.w3.org/1999/02/22-rdf-syntax-ns#Property"

def rdfsLabel : Node := .uri "http://www.w3.org/2000/01/rdf-schema#label"

def rdfsComment : Node := .uri "http://www.w3.org/2000/01/rdf-schema#comment"

def rdfsClass : Node := .uri "http://www.w3.org/2000/01/rdf-schema#Class"

def owlClass : Node := .uri "http://www.w3.org/2002/07/owl#Class"

def owlObjectPropertyN : Node := .uri "http://www.w3.org/2002/07/owl#ObjectProperty"

def owlDatatypePropertyN : Node := .uri "http://www.w3.org/2002/07/owl#DatatypeProperty"

def hasDescription : Node := .uri "http://example.org/axiology#hasDescription"

/-- The class markers `infer_type` tests for (`OWL.Class` and the explicit
`URIRef("http://www.w3.org/2002/07/owl#Class")` are the same term). -/
def class_markers : List Node := [owlClass, rdfsClass]

/-- `list(g.objects(node, pred))`: objects of the matching triples, in
store order. -/
def objects (g : Graph) (node pred : Node) : List Node :=
  (g.filter (fun t => decide (t.s = node) && decide (t.p = pred))).map (·.o)

/-- `lb` satisfies `isinstance(lb, Literal) and lb.language == 'ru'`. -/
def isRuLiteral : Node → Bool
  | .lit _ (some tag) => tag = "ru"
  | _ => false

/-- The substring of `s` after the last occurrence of `c`; `s` itself
when `c` does not occur. This is `s.split(c)[-1]` = `s.rsplit(c, 1)[-1]`. -/
def after_last (c : Char) (s : String) : String :=
  ⟨(s.data.reverse.takeWhile (fun x => x ≠ c)).reverse⟩

/-- Embedding of `get_label` (src/app.py lines 11-26): the first
`rdfs:label` object that is an @ru literal, else the string form of the
first `rdfs:label` object, else for a URIRef the fragment after the last
hash (when one occurs) or the segment after the last slash, else the
string form of the node. The source queries the label list twice when it
is empty; both queries return the same list. -/
def get_label (g : Graph) (node : Node) : String :=
  let labels := objects g node rdfsLabel
  let labels := if labels.isEmpty then objects g node rdfsLabel else labels
  match labels.find? isRuLiteral with
  | some lb => nodeStr lb
  | none =>
    match labels with
    | lb :: _ => nodeStr lb
    | [] =>
      match node with
      | .uri s => if s.data.contains '#' then after_last '#' s else after_last '/' s
      | n => nodeStr n

/-- Embedding of `get_comment` (src/app.py lines 28-38): `rdfs:comment`
objects, else `axiology:hasDescription` objects; prefer an @ru literal,
else the first object, else the empty string. -/
def get_comment (g : Graph) (node : Node) : String :=
  let comments := objects g node rdfsComment
  let comments := if comments.isEmpty then objects g node hasDescription else comments
  match comments.find? isRuLiteral with
  | some c => nodeStr c
  | none =>
    match comments with
    | c :: _ => nodeStr c
    | [] => ""

/-- Embedding of `infer_type` (src/app.py lines 111-128). The second
branch mirrors `any(t for t in types if t not in (OWL.Class, RDFS.Class))`:
Python's `any` consumes the filtered elements themselves, so it also
tests each element's truthiness. The membership tests on `set(...)` and
on `g` are order- and duplicate-insensitive, so testing the list is
faithful. -/
def infer_type (g : Graph) (node : Node) : String :=
  let types := objects g node rdfType
  if decide (owlClass ∈ types) || decide (owlClass ∈ types)
      || decide (rdfsClass ∈ types) then
    "Class"
  else if types.any (fun t =>
      decide (t ≠ owlClass) && decide (t ≠ rdfsClass) && t.truthy) then
    "NamedIndividual"
  else if decide ((⟨node, rdfType, rdfPropertyN⟩ : Triple) ∈ g)
      || decide ((⟨node, rdfType, owlObjectPropertyN⟩ : Triple) ∈ g)
      || decide ((⟨node, rdfType, owlDatatypePropertyN⟩ : Triple) ∈ g) then
    if decide ((⟨node, rdfType, owlObjectPropertyN⟩ : Triple) ∈ g) then
      "ObjectProperty"
    else if decide ((⟨node, rdfType, owlDatatypePropertyN⟩ : Triple) ∈ g) then
      "DatatypeProperty"
    else
      "Property"
  else
    "Other"

/-- Embedding of `type_color` (src/app.py lines 130-139). -/
def type_color (ntype : String) : String :=
  if ntype = "Class" then "#2b8cbe"
  else if ntype = "NamedIndividual" then "#7b3294"
  else if ntype = "ObjectProperty" then "#d95f02"
  else if ntype = "DatatypeProperty" then "#1b9e77"
  else if ntype = "Property" then "#e7298a"
  else if ntype = "Other" then "#999999"
  else "#999999"

/-- One `net.add_node` call made by `build_network`. -/
structure NodeView where
  id : String
  label : String
  ntype : String
  color : String
  size : Nat
  title : String
deriving DecidableEq

/-- One `net.add_edge` call made by `build_network`. -/
structure EdgeView where
  src : String
  tgt : String
  label : String
deriving DecidableEq

/-- The node/edge view model handed to the renderer. -/
structure NetModel where
  nodes : List NodeView
  edges : List EdgeView
deriving DecidableEq

/-- `subjOrder` is a possible iteration order of `set(g.subjects())`:
duplicate-free, containing exactly the subjects of `g`. Python set
iteration order over these terms is not fixed, so it is a parameter. -/
def enumerates_subjects (g : Graph) (l : List Node) : Prop :=
  l.Nodup ∧ (∀ n ∈ l, ∃ t ∈ g, t.s = n) ∧ (∀ t ∈ g, t.s ∈ l)

/-- `objOrder` is a possible iteration order of `set(g.objects())`. -/
def enumerates_objects (g : Graph) (l : List Node) : Prop :=
  l.Nodup ∧ (∀ n ∈ l, ∃ t ∈ g, t.o = n) ∧ (∀ t ∈ g, t.o ∈ l)

instance (g : Graph) (l : List Node) : Decidable (enumerates_subjects g l) := by
  unfold enumerates_subjects; infer_instance

instance (g : Graph) (l : List Node) : Decidable (enumerates_objects g l) := by
  unfold enumerates_objects; infer_instance

/-- The insertion order of the `node_info` dict keys in `build_network`:
URIRef subjects in subject-iteration order, then URIRef objects not
already present, in object-iteration order. -/
def node_insertion_order (g : Graph) (subjOrder objOrder : List Node) : List Node :=
  let subs := subjOrder.filter Node.isUri
  subs ++ objOrder.filter (fun o => o.isUri && decide (o ∉ subs))

/-- The edge view `build_network` makes for a stored triple. -/
def edge_of (g : Graph) (t : Triple) : EdgeView :=
  { src := nodeStr t.s, tgt := nodeStr t.o,
    label := if t.p.isUri then get_label g t.p else nodeStr t.p }

/-- Embedding of `build_network` (src/app.py lines 68-108).
`selectedStr` is `str(selected_node)` as the source compares it.
Nodes: the first `maxNodes` entries of the node-map insertion order.
Edges: every stored triple whose subject and object are URIRefs and are
keys of the full (uncapped) node map. -/
def build_network (g : Graph) (selectedStr : String) (maxNodes : Nat)
    (subjOrder objOrder : List Node) : NetModel :=
  let keys := node_insertion_order g subjOrder objOrder
  let nodeItems := keys.take maxNodes
  let nodes := nodeItems.map (fun n =>
    let label := get_label g n
    let ntype := infer_type g n
    { id := nodeStr n, label := label, ntype := ntype,
      color := type_color ntype,
      size := if nodeStr n = selectedStr then 18 else 12,
      title := label ++ " (" ++ ntype ++ ")<br>" ++ get_comment g n })
  let edges := (g.filter (fun t =>
      t.s.isUri && t.o.isUri && decide (t.s ∈ keys) && decide (t.o ∈ keys))).map
    (edge_of g)
  { nodes := nodes, edges := edges }

/-- Embedding of `serialize_subset` (src/app.py lines 142-147): the
triples with an endpoint in the selection (the store holds no duplicate
triples, so adding them to a fresh graph keeps them all). -/
def serialize_subset (g : Graph) (nodes_subset : List Node) : Graph :=
  g.filter (fun t => decide (t.s ∈ nodes_subset) || decide (t.o ∈ nodes_subset))

/-- One row of the node table `df_nodes` (src/app.py lines 203-212);
the display-only qname column is omitted. -/
structure NodeRow where
  uri : String
  label : String
  comment : String
  ntype : String
deriving DecidableEq

/-- The node table built over an iteration order of `all_nodes`. -/
def node_table (g : Graph) (order : List Node) : List NodeRow :=
  order.map (fun n =>
    { uri := nodeStr n, label := get_label g n,
      comment := get_comment g n, ntype := infer_type g n })

/-- The `typ_filters` mask (src/app.py lines 214-224) with an empty
search query: keep the rows whose inferred type is among the selected
type names. -/
def filter_by_type (rows : List NodeRow) (typFilters : List String) : List NodeRow :=
  rows.filter (fun r => decide (r.ntype ∈ typFilters))

/-! Concrete terms used to instantiate the claims. -/

def eA : Node := .uri "http://e#a"

def eB : Node := .uri "http://e#b"

def eC : Node := .uri "http://e#c"

def eD : Node := .uri "http://e#d"

def eP : Node := .uri "http://e#p"

/-! General lemmas about the embedded operations. -/

theorem mem_objects_iff {g : Graph} {n p o : Node} :
    o ∈ objects g n p ↔ (⟨n, p, o⟩ : Triple) ∈ g := by
  simp only [objects, List.mem_map, List.mem_filter, Bool.and_eq_true,
    decide_eq_true_eq]
  constructor
  · rintro ⟨t, ⟨ht, hs, hp⟩, ho⟩
    cases t
    subst hs; subst hp; subst ho
    exact ht
  · intro h
    exact ⟨⟨n, p, o⟩, ⟨h, rfl, rfl⟩, rfl⟩

theorem not_mem_of_objects_nil {g : Graph} {n p o : Node}
    (h : objects g n p = []) : (⟨n, p, o⟩ : Triple) ∉ g := by
  intro hc
  have := mem_objects_iff.mpr hc
  rw [h] at this
  exact List.not_mem_nil o this

theorem mem_insertion_of_subject (g : Graph) (so oo : List Node)
    (hso : enumerates_subjects g so) {t : Triple} (ht : t ∈ g)
    (hu : t.s.isUri = true) : t.s ∈ node_insertion_order g so oo := by
  simp only [node_insertion_order]
  exact List.mem_append_left _ (List.mem_filter.mpr ⟨hso.2.2 t ht, hu⟩)

theorem mem_insertion_of_object (g : Graph) (so oo : List Node)
    (hoo : enumerates_objects g oo) {t : Triple} (ht : t ∈ g)
    (hu : t.o.isUri = true) : t.o ∈ node_insertion_order g so oo := by
  simp only [node_insertion_order]
  by_cases h : t.o ∈ so.filter Node.isUri
  · exact List.mem_append_left _ h
  · refine List.mem_append_right _ (List.mem_filter.mpr ⟨hoo.2.2 t ht, ?_⟩)
    simp [hu, h]

theorem get_label_eq (g : Graph) (n : Node) :
    get_label g n =
      match (objects g n rdfsLabel).find? isRuLiteral with
      | some lb => nodeStr lb
      | none =>
        match objects g n rdfsLabel with
        | lb :: _ => nodeStr lb
        | [] =>
          match n with
          | .uri s =>
            if s.data.contains '#' then after_last '#' s else after_last '/' s
          | m => nodeStr m := by
  unfold get_label
  simp only [ite_self]

/-! Claim C6. -/

/-- C6: a URI node with a `rdf:type` triple whose object is one of the
class markers (`owl:Class`, `rdfs:Class`) is classified `"Class"` by
`infer_type`. -/
theorem c6_class_marker (g : Graph) (n m : Node) (hm : m ∈ class_markers)
    (ht : (⟨n, rdfType, m⟩ : Triple) ∈ g) : infer_type g n = "Class" := by
  have hmem : m ∈ objects g n rdfType := mem_objects_iff.mpr ht
  have hcm : m = owlClass ∨ m = rdfsClass := by simpa [class_markers] using hm
  rcases hcm with rfl | rfl <;> simp [infer_type, hmem]

/-- Witness for C6: a concrete store typing a node `owl:Class`. -/
theorem c6_class_marker_witness :
    infer_type [(⟨eA, rdfType, owlClass⟩ : Triple)] eA = "Class" :=
  c6_class_marker [⟨eA, rdfType, owlClass⟩] eA owlClass (by decide) (by decide)

/-! Claim C9. -/

/-- C9: `infer_type` is total — it always returns one of the six type
tags — and a node with no `rdf:type` triples at all is classified
`"Other"`. -/
theorem c9_classification_total (g : Graph) (n : Node) :
    infer_type g n ∈ ["Class", "NamedIndividual", "ObjectProperty",
      "DatatypeProperty", "Property", "Other"]
  ∧ (objects g n rdfType = [] → infer_type g n = "Other") := by
  constructor
  · simp only [infer_type]
    repeat' split
    all_goals simp
  · intro h
    have h1 : (⟨n, rdfType, rdfPropertyN⟩ : Triple) ∉ g := not_mem_of_objects_nil h
    have h2 : (⟨n, rdfType, owlObjectPropertyN⟩ : Triple) ∉ g :=
      not_mem_of_objects_nil h
    have h3 : (⟨n, rdfType, owlDatatypePropertyN⟩ : Triple) ∉ g :=
      not_mem_of_objects_nil h
    simp [infer_type, h, h1, h2, h3]

/-- Witness for C9: a node absent from an empty store is `"Other"`. -/
theorem c9_classification_total_witness :
    infer_type [] (Node.uri "http://e#w") = "Other" :=
  (c9_classification_total [] (Node.uri "http://e#w")).2 (by decide)

/-! Claim C5. -/

/-- C5 counterexample: a node whose `rdf:type` objects are
`{owl:Class, <http://e#p>}` satisfies the claim's hypothesis (the type
set is non-empty and contains a member that is not a class marker), yet
`infer_type` returns `"Class"`, not `"NamedIndividual"`: the class-marker
branch takes precedence. -/
theorem c5_counterexample :
    (objects [(⟨eA, rdfType, owlClass⟩ : Triple), ⟨eA, rdfType, eP⟩] eA rdfType ≠ []
  ∧ eP ∈ objects [(⟨eA, rdfType, owlClass⟩ : Triple), ⟨eA, rdfType, eP⟩] eA rdfType
  ∧ eP ∉ class_markers)
  ∧ infer_type [(⟨eA, rdfType, owlClass⟩ : Triple), ⟨eA, rdfType, eP⟩] eA
      ≠ "NamedIndividual" := by decide

/-- C5 (amended): a node whose `rdf:type` objects are non-empty, contain
no class marker, and contain at least one member with a non-empty string
form (Python's `any` tests element truthiness) is classified
`"NamedIndividual"`, never `"Other"`. -/
theorem c5_named_individual (g : Graph) (n : Node)
    (h1 : objects g n rdfType ≠ [])
    (h2 : ∀ t ∈ objects g n rdfType, t ∉ class_markers)
    (h3 : ∃ t ∈ objects g n rdfType, t.truthy) :
    infer_type g n = "NamedIndividual" ∧ infer_type g n ≠ "Other" := by
  obtain ⟨t, ht, htr⟩ := h3
  have hno : owlClass ∉ objects g n rdfType := fun hc =>
    h2 _ hc (by simp [class_markers])
  have hnr : rdfsClass ∉ objects g n rdfType := fun hc =>
    h2 _ hc (by simp [class_markers])
  have hne1 : t ≠ owlClass := by rintro rfl; exact hno ht
  have hne2 : t ≠ rdfsClass := by rintro rfl; exact hnr ht
  have hex : ∃ x ∈ objects g n rdfType,
      (¬x = owlClass ∧ ¬x = rdfsClass) ∧ x.truthy = true :=
    ⟨t, ht, ⟨hne1, hne2⟩, htr⟩
  constructor <;> simp [infer_type, hno, hnr, hex]

/-- Witness for C5: a node typed by a plain (non-marker) class URI. -/
theorem c5_named_individual_witness :
    infer_type [(⟨eA, rdfType, eC⟩ : Triple)] eA = "NamedIndividual"
  ∧ infer_type [(⟨eA, rdfType, eC⟩ : Triple)] eA ≠ "Other" :=
  c5_named_individual [⟨eA, rdfType, eC⟩] eA (by decide) (by decide) (by decide)

/-! Claim C2. -/

/-- C2: evaluating `infer_type` at the failing input. A node whose only
`rdf:type` object is `owl:ObjectProperty` satisfies the claim's
hypothesis (no class marker among its types; a `type` triple points to
the object-property marker), but the code returns `"NamedIndividual"`:
the NamedIndividual branch fires first because a property marker is not
a class marker, so the ObjectProperty / DatatypeProperty / Property
branches are unreachable. -/
theorem c2_property_branch_shadowed :
    infer_type [(⟨eP, rdfType, owlObjectPropertyN⟩ : Triple)] eP = "NamedIndividual"
  ∧ infer_type [(⟨eP, rdfType, owlObjectPropertyN⟩ : Triple)] eP
      ≠ "ObjectProperty" := by decide

/-! Claim C10. -/

/-- C10 counterexample: a node whose only `rdfs:comment` object is a URI
(no literal for the comment predicate, nothing under `hasDescription`)
makes `get_comment` return the URI's string, not the empty string: the
code tests for any objects, not for literals. -/
theorem c10_counterexample :
    (∀ o ∈ objects [(⟨eA, rdfsComment, eD⟩ : Triple)] eA rdfsComment,
        o.isLit = false)
  ∧ objects [(⟨eA, rdfsComment, eD⟩ : Triple)] eA hasDescription = []
  ∧ get_comment [(⟨eA, rdfsComment, eD⟩ : Triple)] eA = "http://e#d"
  ∧ get_comment [(⟨eA, rdfsComment, eD⟩ : Triple)] eA ≠ "" := by decide

/-- C10 (amended): a node with no objects at all for `rdfs:comment` and
none for the secondary `hasDescription` predicate gets the empty string
from `get_comment` (no error, no URI-derived placeholder). -/
theorem c10_empty_comment (g : Graph) (n : Node)
    (h1 : objects g n rdfsComment = [])
    (h2 : objects g n hasDescription = []) :
    get_comment g n = "" := by
  simp [get_comment, h1, h2]

/-- Witness for C10: a store with only a label triple for the node. -/
theorem c10_empty_comment_witness :
    get_comment [(⟨eA, rdfsLabel, Node.lit "x" none⟩ : Triple)] eA = "" :=
  c10_empty_comment [⟨eA, rdfsLabel, Node.lit "x" none⟩] eA (by decide) (by decide)

/-! Claim C7. -/

/-- C7 counterexample: the node `<http://e#Name>` has a single
`rdfs:label` object, the URI `<http://e#Other>` — no label literal at
all. The claim's fallback chain demands the fragment `"Name"`, but
`get_label` returns `"http://e#Other"`: the URI fallback is reached only
when there are no label objects of any kind, and a non-literal first
object is returned as its string form. -/
theorem c7_counterexample :
    (∀ o ∈ objects [(⟨Node.uri "http://e#Name", rdfsLabel, Node.uri "http://e#Other"⟩ : Triple)]
        (Node.uri "http://e#Name") rdfsLabel, o.isLit = false)
  ∧ get_label [(⟨Node.uri "http://e#Name", rdfsLabel, Node.uri "http://e#Other"⟩ : Triple)]
      (Node.uri "http://e#Name") = "http://e#Other"
  ∧ get_label [(⟨Node.uri "http://e#Name", rdfsLabel, Node.uri "http://e#Other"⟩ : Triple)]
      (Node.uri "http://e#Name") ≠ "Name" := by decide

/-- C7 (amended): the fallback chain of `get_label`. It returns the
first `rdfs:label` object that is an @ru literal when one exists; else
the string form of the first `rdfs:label` object, literal or not; else,
for a URI node with no label objects at all, the substring after the
last hash when the identifier contains one, else the substring after the
last slash (the whole identifier when it has no slash); else the string
form of the node. -/
theorem c7_label_chain (g : Graph) (n : Node) :
    (∀ lb, (objects g n rdfsLabel).find? isRuLiteral = some lb →
        get_label g n = nodeStr lb)
  ∧ ((objects g n rdfsLabel).find? isRuLiteral = none →
      (∀ lb rest, objects g n rdfsLabel = lb :: rest → get_label g n = nodeStr lb)
    ∧ (objects g n rdfsLabel = [] →
        (∀ s, n = Node.uri s →
          get_label g n =
            if s.data.contains '#' then after_last '#' s else after_last '/' s)
      ∧ (n.isUri = false → get_label g n = nodeStr n))) := by
  refine ⟨fun lb hfind => ?_, fun hnone =>
    ⟨fun lb rest hcons => ?_, fun hnil => ⟨fun s hs => ?_, fun hnu => ?_⟩⟩⟩
  · rw [get_label_eq, hfind]
  · rw [get_label_eq, hnone, hcons]
  · subst hs
    rw [get_label_eq, hnone, hnil]
  · rw [get_label_eq, hnone, hnil]
    cases n with
    | uri s => simp [Node.isUri] at hnu
    | lit v l => rfl
    | blank b => rfl

/-- Witness for C7: a URI node with no label triples resolves to its
fragment after the hash. -/
theorem c7_label_chain_witness :
    get_label [] (Node.uri "http://e#x") = "x" := by
  have h := (((c7_label_chain [] (Node.uri "http://e#x")).2 (by decide)).2
    (by decide)).1 "http://e#x" rfl
  rw [h]
  decide

/-! Claim C8. -/

/-- C8: `serialize_subset` keeps every stored triple whose subject or
object is in the selection, whatever the predicate is, so the exported
triple count is at least the number of stored triples with an endpoint
in the selection. -/
theorem c8_export_superset (g : Graph) (sel : List Node) :
    (∀ t ∈ g, t.s ∈ sel ∨ t.o ∈ sel → t ∈ serialize_subset g sel)
  ∧ g.countP (fun t => decide (t.s ∈ sel) || decide (t.o ∈ sel))
      ≤ (serialize_subset g sel).length := by
  constructor
  · intro t ht hsel
    rw [serialize_subset, List.mem_filter]
    refine ⟨ht, ?_⟩
    rcases hsel with h | h <;> simp [h]
  · rw [serialize_subset, ← List.countP_eq_length_filter]

/-- Witness for C8: a triple whose subject is selected survives export
even though its predicate is not selected. -/
theorem c8_export_superset_witness :
    (⟨eA, eP, eB⟩ : Triple) ∈ serialize_subset [⟨eA, eP, eB⟩] [eA] :=
  (c8_export_superset [⟨eA, eP, eB⟩] [eA]).1 ⟨eA, eP, eB⟩ (by decide) (by decide)

/-! Claim C1. -/

/-- The one-triple store used to instantiate claims C1 and C3. -/
def gAB : Graph := [⟨eA, eP, eB⟩]

/-- C1 counterexample: with the store `{(a,p,b)}` and `maxNodes = 1`,
the capped node set is `{a}` alone, yet the edge for `(a,p,b)` is still
added — `build_network` tests edge endpoints against the full `node_info`
map, which always contains every URI subject and object, not against
the capped node list, and it consults no property filter. -/
theorem c1_counterexample :
    (enumerates_subjects gAB [eA] ∧ enumerates_objects gAB [eB])
  ∧ (build_network gAB "None" 1 [eA] [eB]).nodes.map NodeView.id = [nodeStr eA]
  ∧ nodeStr eB ∉ (build_network gAB "None" 1 [eA] [eB]).nodes.map NodeView.id
  ∧ (build_network gAB "None" 1 [eA] [eB]).edges ≠ [] := by decide

/-- C1 (amended): the edges of the built model are exactly the stored
triples whose subject and object are both URI nodes, in store order —
the membership test against the uncapped node map is vacuous, and
neither the node cap nor any property filter restricts the edges. -/
theorem c1_edges_uncapped_unfiltered (g : Graph) (selectedStr : String)
    (maxNodes : Nat) (subjOrder objOrder : List Node)
    (hso : enumerates_subjects g subjOrder)
    (hoo : enumerates_objects g objOrder) :
    (build_network g selectedStr maxNodes subjOrder objOrder).edges
      = (g.filter (fun t => t.s.isUri && t.o.isUri)).map (edge_of g) := by
  simp only [build_network]
  congr 1
  apply List.filter_congr
  intro t ht
  cases hs : t.s.isUri
  · simp [hs]
  · cases ho : t.o.isUri
    · simp [ho]
    · have h1 := mem_insertion_of_subject g subjOrder objOrder hso ht hs
      have h2 := mem_insertion_of_object g subjOrder objOrder hoo ht ho
      simp [hs, ho, h1, h2]

/-- Witness for C1 (amended) on the concrete one-triple store. -/
theorem c1_edges_uncapped_unfiltered_witness :
    (build_network gAB "None" 1 [eA] [eB]).edges
      = (gAB.filter (fun t => t.s.isUri && t.o.isUri)).map (edge_of gAB) :=
  c1_edges_uncapped_unfiltered gAB "None" 1 [eA] [eB] (by decide) (by decide)

/-! Claim C3. -/

/-- The two-triple store used to instantiate claim C3. -/
def gABCD : Graph := [⟨eA, eP, eB⟩, ⟨eC, eP, eD⟩]

/-- C3 counterexample: `[a, c]` and `[c, a]` are both possible iteration
orders of the same subject set `{a, c}`, but with `maxNodes = 1` they
yield different truncated node sets — truncation follows the unordered
set iteration, not a fixed reproducible ordering, so identical input and
`maxNodes` need not yield an identical truncated node set. -/
theorem c3_counterexample :
    (enumerates_subjects gABCD [eA, eC] ∧ enumerates_subjects gABCD [eC, eA]
      ∧ enumerates_objects gABCD [eB, eD])
  ∧ (build_network gABCD "None" 1 [eA, eC] [eB, eD]).nodes.map NodeView.id
      ≠ (build_network gABCD "None" 1 [eC, eA] [eB, eD]).nodes.map NodeView.id := by
  decide

/-- C3 (amended): the built model never holds more than `maxNodes`
nodes; the truncation itself follows the node-map insertion order
inherited from unordered set iteration, so only the count bound is
order-independent. -/
theorem c3_node_cap (g : Graph) (selectedStr : String) (maxNodes : Nat)
    (subjOrder objOrder : List Node) :
    (build_network g selectedStr maxNodes subjOrder objOrder).nodes.length
      ≤ maxNodes := by
  simp [build_network]

/-! Claim C4. -/

/-- The example store of the specification: `:Policy` is a class with an
@ru label, `:A` and `:B` are typed by `:Policy`, and `:A relatesTo :B`. -/
def exG : Graph :=
  [⟨.uri "http://e#Policy", rdfType, owlClass⟩,
   ⟨.uri "http://e#Policy", rdfsLabel, .lit "Политика" (some "ru")⟩,
   ⟨.uri "http://e#A", rdfType, .uri "http://e#Policy"⟩,
   ⟨.uri "http://e#A", rdfsLabel, .lit "Пример А" (some "ru")⟩,
   ⟨.uri "http://e#A", .uri "http://e#relatesTo", .uri "http://e#B"⟩,
   ⟨.uri "http://e#B", rdfType, .uri "http://e#Policy"⟩]

/-- A possible subject-set iteration order for `exG`. -/
def exSubj : List Node := [.uri "http://e#Policy", .uri "http://e#A", .uri "http://e#B"]

/-- A possible object-set iteration order for `exG`. -/
def exObj : List Node :=
  [owlClass, .lit "Политика" (some "ru"), .uri "http://e#Policy",
   .lit "Пример А" (some "ru"), .uri "http://e#B"]

/-- C4 counterexample: on the specification's example store the claim
demands, for `individualFilter = {:A}` (other filters empty), a node set
`{:A}` and zero edges. `build_network` accepts no filters at all: the
built model still contains the node `:B` and a non-empty edge list. The
type filters of the UI only mask the node table. -/
theorem c4_counterexample :
    (enumerates_subjects exG exSubj ∧ enumerates_objects exG exObj)
  ∧ "http://e#B" ∈ (build_network exG "None" 10 exSubj exObj).nodes.map NodeView.id
  ∧ (build_network exG "None" 10 exSubj exObj).edges ≠ [] := by decide

/-- C4 (amended): the selected type names restrict only the node table —
a row survives `filter_by_type` exactly when it is a table row whose
inferred type tag is among the selected names; the network model is
built without consulting any filter. -/
theorem c4_type_filter_on_table (g : Graph) (order : List Node)
    (typFilters : List String) (r : NodeRow) :
    r ∈ filter_by_type (node_table g order) typFilters
      ↔ r ∈ node_table g order ∧ r.ntype ∈ typFilters := by
  simp [filter_by_type, List.mem_filter]

end AxiOnt
